import Mathlib

/-!
Verification of rpi-camera-playback.c (rpi-openmax-demos).

We shallowly embed the parts of the program the specification talks about:
the error/diagnostic helpers, the event handler and the shared flag pair,
the polling waits, the component-name construction, the port-descriptor
read-modify-write configuration, the port-disable loop of
init_component_handle, and the full ordered sequence of runtime commands
issued by main (startup and teardown).  Line numbers in comments refer to
src/rpi-camera-playback.c.
-/

/-- OMX_ERRORTYPE values as far as omx_die distinguishes them
(lines 129-139); every other code is carried by otherErr. -/
inductive OMXErr
  | errorNone
  | badParameter
  | incorrectStateOperation
  | incorrectStateTransition
  | insufficientResources
  | badPortIndex
  | hardware
  | otherErr (code : Nat)
deriving DecidableEq

/-- The description string omx_die chooses for an error (lines 129-139). -/
def omx_error_description : OMXErr → String
  | .errorNone => "no error"
  | .badParameter => "bad parameter"
  | .incorrectStateOperation => "invalid state while trying to perform command"
  | .incorrectStateTransition => "unallowed state transition"
  | .insufficientResources => "insufficient resource"
  | .badPortIndex => "bad port index, i.e. incorrect port"
  | .hardware => "hardware error"
  | .otherErr _ => "(no description)"

/-- say() (lines 96-108) prints the formatted message to stderr, appending a
trailing newline when the message does not already end with one. -/
def say_line (s : String) : String :=
  if s.endsWith "\x0a" then s else s ++ "\x0a"

/-- die() (lines 110-119): formats the message, prints it via say(), and
exits the process with status 1.  Result: (exit status, stderr line). -/
def die (message : String) : Nat × String :=
  (1, say_line message)

/-- The content of the one diagnostic line omx_die emits: the formatted
message naming the failing operation, the runtime error code, and its
description, per the format string "OMX error: %s: 0x%08x %s" (line 140). -/
structure Diagnostic where
  operation : String
  errCode : OMXErr
  description : String
deriving DecidableEq

/-- omx_die() (lines 121-141): maps the error code to a description and
die()s with one line naming the operation, the code and the description.
Result: (exit status, diagnostic content). -/
def omx_die (error : OMXErr) (message : String) : Nat × Diagnostic :=
  (1, ⟨message, error, omx_error_description error⟩)

/-- OMX_COMMANDTYPE values the program mentions. -/
inductive OMXCommand
  | stateSet
  | flush
  | portDisable
  | portEnable
deriving DecidableEq

/-- The parameter index carried by an OMX_EventParamOrConfigChanged event:
the event handler only distinguishes OMX_IndexParamCameraDeviceNumber. -/
inductive OMXIndexId
  | cameraDeviceNumber
  | otherIndex (n : Nat)
deriving DecidableEq

/-- The events event_handler (lines 348-383) distinguishes. -/
inductive OMXEvent
  | cmdComplete (nData1 : OMXCommand)
  | paramOrConfigChanged (nData2 : OMXIndexId)
  | errorEvent (e : OMXErr)
  | portSettingsChanged
  | otherEvent
deriving DecidableEq

/-- The two shared flags of appctx (lines 88, 91) that the event handler
mutates under handler_lock and the main thread polls. -/
structure SharedFlags where
  camera_ready : Bool
  flushed : Bool
deriving DecidableEq

/-- event_handler (lines 348-383).  On OMX_EventCmdComplete with
nData1 == OMX_CommandFlush it sets flushed (inside the handler_lock critical
section, lines 362-366); on OMX_EventParamOrConfigChanged with
nData2 == OMX_IndexParamCameraDeviceNumber it sets camera_ready
(lines 369-373); on OMX_EventError it calls omx_die (line 376), terminating
the process.  inl: updated flags; inr: process exit via omx_die. -/
def event_handler (ctx : SharedFlags) (e : OMXEvent) : SharedFlags ⊕ (Nat × Diagnostic) :=
  match e with
  | .cmdComplete nData1 =>
      .inl (if nData1 = .flush then { ctx with flushed := true } else ctx)
  | .paramOrConfigChanged nData2 =>
      .inl (if nData2 = .cameraDeviceNumber then { ctx with camera_ready := true } else ctx)
  | .errorEvent err => .inr (omx_die err "error event received")
  | .portSettingsChanged => .inl ctx
  | .otherEvent => .inl ctx

/-- The polling loop of block_until_flushed (lines 286-296).  Each entry of
`deliveries` says whether the event handler delivered a flush completion
(event_handler setting flushed under the lock) before that iteration's
critical section runs.  In the critical section the loop reads flushed and,
when set, resets it and exits (lines 287-292); read and reset are one atomic
step here, exactly as they sit inside one lock/unlock pair in the source.
Returns (flags at return, number of confirmations consumed), or none when
`deliveries` runs out while the loop is still polling. -/
def flushPollLoop : SharedFlags → List Bool → Option (SharedFlags × Nat)
  | _, [] => none
  | ctx, d :: ds =>
      let ctx := if d then { ctx with flushed := true } else ctx
      if ctx.flushed then some ({ ctx with flushed := false }, 1)
      else flushPollLoop ctx ds

/-- block_until_flushed (lines 284-297).  The local `int quit;` (line 285)
is never initialized before the loop condition `while(!quit)` reads it, so
its initial value is indeterminate; `quit0` makes that value explicit.
When quit0 is nonzero the loop body never runs and the function returns at
once, consuming nothing; when quit0 is zero the loop polls as intended. -/
def block_until_flushed (quit0 : Int) (ctx : SharedFlags) (deliveries : List Bool) :
    Option (SharedFlags × Nat) :=
  if quit0 ≠ 0 then some (ctx, 0)
  else flushPollLoop ctx deliveries

/-- strncat(dst, src, n): appends at most n characters of src to dst. -/
def strncat_model (dst src : String) (n : Nat) : String :=
  dst ++ src.take n

/-- Component name construction in init_component_handle (lines 305-310):
char fullname[32] is zeroed, "OMX.broadcom." is strcat'ed in, and then
strncat(fullname, name, strlen(fullname) - 1) appends at most
strlen("OMX.broadcom.") - 1 = 12 characters of the given name. -/
def component_fullname (name : String) : String :=
  let fullname := "" ++ "OMX.broadcom."
  strncat_model fullname name (fullname.length - 1)

/-- VIDEO_FRAMERATE (line 53). -/
def VIDEO_FRAMERATE : Nat := 25

/-- The video view of the format union of OMX_PARAM_PORTDEFINITIONTYPE
(OMX_VIDEO_PORTDEFINITIONTYPE), restricted to the fields the program reads,
writes or dumps.  Pointer-typed members (cMIMEType, pNativeRender,
pNativeWindow) are carried as an opaque number. -/
structure VideoPortFormat where
  cMIMEType : Nat
  pNativeRender : Nat
  nFrameWidth : Nat
  nFrameHeight : Nat
  nStride : Int
  nSliceHeight : Nat
  nBitrate : Nat
  xFramerate : Nat
  bFlagErrorConcealment : Bool
  eCompressionFormat : Nat
  eColorFormat : Nat
  pNativeWindow : Nat
deriving DecidableEq

/-- format.image.nFrameWidth read on the format union.
OMX_VIDEO_PORTDEFINITIONTYPE and OMX_IMAGE_PORTDEFINITIONTYPE share their
initial member sequence (cMIMEType, pNativeRender, nFrameWidth,
nFrameHeight, nStride, nSliceHeight), so inspecting the image view's
nFrameWidth after storing through the video view is well defined and yields
the video view's nFrameWidth. -/
def image_nFrameWidth (f : VideoPortFormat) : Nat :=
  f.nFrameWidth

/-- OMX_PARAM_PORTDEFINITIONTYPE restricted to the members the program
touches (the camera ports are video-domain, so the format union is carried
in its video view). -/
structure PortDef where
  nPortIndex : Nat
  eDir : Nat
  nBufferCountActual : Nat
  nBufferCountMin : Nat
  nBufferSize : Nat
  bEnabled : Bool
  bPopulated : Bool
  eDomain : Nat
  nBufferAlignment : Nat
  video : VideoPortFormat
deriving DecidableEq

/-- The camera runtime's stored port definitions, one per port index. -/
def CamPorts : Type := Nat → PortDef

/-- OMX_GetParameter(h, OMX_IndexParamPortDefinition, &portdef) after the
caller stored idx in portdef.nPortIndex: the runtime fills the structure
with the stored definition of that port. -/
def OMX_GetParameter_portdef (st : CamPorts) (idx : Nat) : PortDef :=
  { st idx with nPortIndex := idx }

/-- OMX_SetParameter(h, OMX_IndexParamPortDefinition, &portdef): the runtime
stores the written definition under portdef.nPortIndex. -/
def OMX_SetParameter_portdef (st : CamPorts) (pd : PortDef) : CamPorts :=
  fun i => if i = pd.nPortIndex then pd else st i

/-- Lines 443-455: configure the video format emitted by camera preview
output port 70.  The descriptor is fetched, then in order
nFrameWidth := screen_width / 2, nFrameHeight := screen_height / 2,
xFramerate := VIDEO_FRAMERATE << 16, and
nStride := camera_portdef.format.image.nFrameWidth (the image view of the
union, aliasing the video nFrameWidth just written), and the whole
descriptor is written back. -/
def configure_preview_port (st : CamPorts) (screen_width screen_height : Nat) : CamPorts :=
  let camera_portdef := OMX_GetParameter_portdef st 70
  let camera_portdef :=
    { camera_portdef with video :=
      { camera_portdef.video with nFrameWidth := screen_width / 2 } }
  let camera_portdef :=
    { camera_portdef with video :=
      { camera_portdef.video with nFrameHeight := screen_height / 2 } }
  let camera_portdef :=
    { camera_portdef with video :=
      { camera_portdef.video with xFramerate := VIDEO_FRAMERATE <<< 16 } }
  let camera_portdef :=
    { camera_portdef with video :=
      { camera_portdef.video with nStride := Int.ofNat (image_nFrameWidth camera_portdef.video) } }
  OMX_SetParameter_portdef st camera_portdef

/-- Lines 456-467: configure the video format emitted by camera video
output port 71 by fetching the full port 70 descriptor, overwriting only
nPortIndex with 71, and writing it back. -/
def configure_video_port (st : CamPorts) : CamPorts :=
  let camera_portdef := OMX_GetParameter_portdef st 70
  let camera_portdef := { camera_portdef with nPortIndex := 71 }
  OMX_SetParameter_portdef st camera_portdef

/-- The three OMX components the program opens. -/
inductive Comp
  | camera
  | render
  | null_sink
deriving DecidableEq

/-- Component lifecycle states the program commands. -/
inductive CState
  | loaded
  | idle
  | executing
deriving DecidableEq

/-- The OMX_SetParameter/OMX_SetConfig tuning and configuration calls of
main, named after the setting each one writes. -/
inductive CfgKind
  | requestCallback
  | deviceNumber
  | framerate70
  | framerate71
  | sharpness
  | contrast
  | saturation
  | brightness
  | exposureValue
  | frameStabilisation
  | whiteBalance
  | imageFilter
  | mirror
  | displayRegion
deriving DecidableEq

/-- The externally visible operations main performs against the OMX runtime
(plus the polling waits and the steady-state loop), one constructor per kind
of call site. -/
inductive Act
  | omxInit
  | createLock
  | getHandle (c : Comp)
  | getDisplaySize
  | dumpPort (c : Comp) (p : Nat)
  | setConfig (c : Comp) (k : CfgKind)
  | getPortDefinition (c : Comp) (p : Nat)
  | setPortDefinition (c : Comp) (p : Nat)
  | waitCameraReady
  | setupTunnel (c1 : Comp) (p1 : Nat) (c2 : Comp) (p2 : Nat)
  | cmdStateSet (c : Comp) (s : CState)
  | waitState (c : Comp) (s : CState)
  | cmdPortEnable (c : Comp) (p : Nat)
  | cmdPortDisable (c : Comp) (p : Nat)
  | waitPort (c : Comp) (p : Nat) (enabled : Bool)
  | cmdFlush (c : Comp) (p : Nat)
  | waitFlushed
  | allocateBuffer (c : Comp) (p : Nat)
  | freeBuffer (c : Comp) (p : Nat)
  | setCapture (p : Nat) (enabled : Bool)
  | steadyStateLoop
  | freeHandle (c : Comp)
  | deleteLock
  | omxDeinit
  | sayExit
deriving DecidableEq

/-- One step of main: the operation performed, whether its failure is
routed through the oracle-visible OMX error check (an `if ((r = ...) !=
OMX_ErrorNone) omx_die(...)` in the source), and the omx_die message used
there.  Steps whose failure path goes through plain die() or that cannot
fail carry canFail = false. -/
structure MainStep where
  action : Act
  canFail : Bool
  errMsg : String

/-- The steps of main in source order from OMX_Init (line 390) up to and
including the steady-state loop (lines 706-709).  Each entry's comment-free
transcription follows the call sites at lines 390-709; the three
init_component_handle calls (lines 406-408) appear as getHandle steps, with
their inner port-disable loops modelled separately by
init_component_handle_disable_all. -/
def startupSteps : List MainStep := [
  ⟨.omxInit, true, "OMX initalization failed"⟩,
  ⟨.createLock, false, ""⟩,
  ⟨.getHandle .camera, true, "Failed to get handle for component OMX.broadcom.camera"⟩,
  ⟨.getHandle .render, true, "Failed to get handle for component OMX.broadcom.video_render"⟩,
  ⟨.getHandle .null_sink, true, "Failed to get handle for component OMX.broadcom.null_sink"⟩,
  ⟨.getDisplaySize, false, ""⟩,
  ⟨.dumpPort .camera 73, true, "Failed to get port definition for port 73"⟩,
  ⟨.dumpPort .camera 70, true, "Failed to get port definition for port 70"⟩,
  ⟨.dumpPort .camera 71, true, "Failed to get port definition for port 71"⟩,
  ⟨.setConfig .camera .requestCallback, true,
    "Failed to request camera device number parameter change callback for camera"⟩,
  ⟨.setConfig .camera .deviceNumber, true, "Failed to set camera parameter device number"⟩,
  ⟨.getPortDefinition .camera 70, true,
    "Failed to get port definition for camera preview output port 70"⟩,
  ⟨.setPortDefinition .camera 70, true,
    "Failed to set port definition for camera preview output port 70"⟩,
  ⟨.getPortDefinition .camera 70, true,
    "Failed to get port definition for camera preview output port 70"⟩,
  ⟨.setPortDefinition .camera 71, true,
    "Failed to set port definition for camera video output port 71"⟩,
  ⟨.setConfig .camera .framerate70, true,
    "Failed to set framerate configuration for camera preview output port 70"⟩,
  ⟨.setConfig .camera .framerate71, true,
    "Failed to set framerate configuration for camera video output port 71"⟩,
  ⟨.setConfig .camera .sharpness, true, "Failed to set camera sharpness configuration"⟩,
  ⟨.setConfig .camera .contrast, true, "Failed to set camera contrast configuration"⟩,
  ⟨.setConfig .camera .saturation, true, "Failed to set camera saturation configuration"⟩,
  ⟨.setConfig .camera .brightness, true, "Failed to set camera brightness configuration"⟩,
  ⟨.setConfig .camera .exposureValue, true, "Failed to set camera exposure value configuration"⟩,
  ⟨.setConfig .camera .frameStabilisation, true,
    "Failed to set camera frame frame stabilisation control configuration"⟩,
  ⟨.setConfig .camera .whiteBalance, true,
    "Failed to set camera frame white balance control configuration"⟩,
  ⟨.setConfig .camera .imageFilter, true, "Failed to set camera image filter configuration"⟩,
  ⟨.setConfig .camera .mirror, true,
    "Failed to set mirror configuration for camera video output port 71"⟩,
  ⟨.waitCameraReady, false, ""⟩,
  ⟨.dumpPort .render 90, true, "Failed to get port definition for port 90"⟩,
  ⟨.setConfig .render .displayRegion, true,
    "Failed to set display region for render output port 90"⟩,
  ⟨.dumpPort .null_sink 240, true, "Failed to get port definition for port 240"⟩,
  ⟨.setupTunnel .camera 70 .null_sink 240, true,
    "Failed to setup tunnel between camera preview output port 70 and null sink input port 240"⟩,
  ⟨.setupTunnel .camera 71 .render 90, true,
    "Failed to setup tunnel between camera video output port 71 and render input port 90"⟩,
  ⟨.cmdStateSet .camera .idle, true, "Failed to switch state of the camera component to idle"⟩,
  ⟨.waitState .camera .idle, false, ""⟩,
  ⟨.cmdStateSet .render .idle, true, "Failed to switch state of the render component to idle"⟩,
  ⟨.waitState .render .idle, false, ""⟩,
  ⟨.cmdStateSet .null_sink .idle, true,
    "Failed to switch state of the null sink component to idle"⟩,
  ⟨.waitState .null_sink .idle, false, ""⟩,
  ⟨.cmdPortEnable .camera 73, true, "Failed to enable camera input port 73"⟩,
  ⟨.waitPort .camera 73 true, true, "Failed to get port definition"⟩,
  ⟨.cmdPortEnable .camera 70, true, "Failed to enable camera preview output port 70"⟩,
  ⟨.waitPort .camera 70 true, true, "Failed to get port definition"⟩,
  ⟨.cmdPortEnable .camera 71, true, "Failed to enable camera video output port 71"⟩,
  ⟨.waitPort .camera 71 true, true, "Failed to get port definition"⟩,
  ⟨.cmdPortEnable .render 90, true, "Failed to enable render input port 90"⟩,
  ⟨.waitPort .render 90 true, true, "Failed to get port definition"⟩,
  ⟨.cmdPortEnable .null_sink 240, true, "Failed to enable null sink input port 240"⟩,
  ⟨.waitPort .null_sink 240 true, true, "Failed to get port definition"⟩,
  ⟨.getPortDefinition .camera 73, true,
    "Failed to get port definition for camera input port 73"⟩,
  ⟨.allocateBuffer .camera 73, true, "Failed to allocate buffer for camera input port 73"⟩,
  ⟨.cmdStateSet .camera .executing, true,
    "Failed to switch state of the camera component to executing"⟩,
  ⟨.waitState .camera .executing, false, ""⟩,
  ⟨.cmdStateSet .render .executing, true,
    "Failed to switch state of the render component to executing"⟩,
  ⟨.waitState .render .executing, false, ""⟩,
  ⟨.cmdStateSet .null_sink .executing, true,
    "Failed to switch state of the null sink component to executing"⟩,
  ⟨.waitState .null_sink .executing, false, ""⟩,
  ⟨.setCapture 71 true, true, "Failed to switch on capture on camera video output port 71"⟩,
  ⟨.dumpPort .camera 73, true, "Failed to get port definition for port 73"⟩,
  ⟨.dumpPort .camera 70, true, "Failed to get port definition for port 70"⟩,
  ⟨.dumpPort .camera 71, true, "Failed to get port definition for port 71"⟩,
  ⟨.dumpPort .render 90, true, "Failed to get port definition for port 90"⟩,
  ⟨.dumpPort .null_sink 240, true, "Failed to get port definition for port 240"⟩,
  ⟨.steadyStateLoop, false, ""⟩]

/-- The steps of main in source order from the capture switch-off
(lines 717-723) through the final say("Exit!") (line 816).  Note
lines 760-766: the render port 90 disable is issued and the very next
runtime command is the null sink port 240 disable, with no
block_until_port_changed call for port 90 in between. -/
def teardownSteps : List MainStep := [
  ⟨.setCapture 71 false, true, "Failed to switch off capture on camera video output port 71"⟩,
  ⟨.cmdFlush .camera 73, true, "Failed to flush buffers of camera input port 73"⟩,
  ⟨.waitFlushed, false, ""⟩,
  ⟨.cmdFlush .camera 70, true, "Failed to flush buffers of camera preview output port 70"⟩,
  ⟨.waitFlushed, false, ""⟩,
  ⟨.cmdFlush .camera 71, true, "Failed to flush buffers of camera video output port 71"⟩,
  ⟨.waitFlushed, false, ""⟩,
  ⟨.cmdFlush .render 90, true, "Failed to flush buffers of render input port 90"⟩,
  ⟨.waitFlushed, false, ""⟩,
  ⟨.cmdFlush .null_sink 240, true, "Failed to flush buffers of null sink input port 240"⟩,
  ⟨.waitFlushed, false, ""⟩,
  ⟨.cmdPortDisable .camera 73, true, "Failed to disable camera input port 73"⟩,
  ⟨.waitPort .camera 73 false, true, "Failed to get port definition"⟩,
  ⟨.cmdPortDisable .camera 70, true, "Failed to disable camera preview output port 70"⟩,
  ⟨.waitPort .camera 70 false, true, "Failed to get port definition"⟩,
  ⟨.cmdPortDisable .camera 71, true, "Failed to disable camera video output port 71"⟩,
  ⟨.waitPort .camera 71 false, true, "Failed to get port definition"⟩,
  ⟨.cmdPortDisable .render 90, true, "Failed to disable render input port 90"⟩,
  ⟨.cmdPortDisable .null_sink 240, true, "Failed to disable null sink input port 240"⟩,
  ⟨.waitPort .null_sink 240 false, true, "Failed to get port definition"⟩,
  ⟨.freeBuffer .camera 73, true, "Failed to free buffer for camera input port 73"⟩,
  ⟨.cmdStateSet .camera .idle, true, "Failed to switch state of the camera component to idle"⟩,
  ⟨.waitState .camera .idle, false, ""⟩,
  ⟨.cmdStateSet .render .idle, true, "Failed to switch state of the render component to idle"⟩,
  ⟨.waitState .render .idle, false, ""⟩,
  ⟨.cmdStateSet .null_sink .idle, true,
    "Failed to switch state of the null sink component to idle"⟩,
  ⟨.waitState .null_sink .idle, false, ""⟩,
  ⟨.cmdStateSet .camera .loaded, true,
    "Failed to switch state of the camera component to loaded"⟩,
  ⟨.waitState .camera .loaded, false, ""⟩,
  ⟨.cmdStateSet .render .loaded, true,
    "Failed to switch state of the render component to loaded"⟩,
  ⟨.waitState .render .loaded, false, ""⟩,
  ⟨.cmdStateSet .null_sink .loaded, true,
    "Failed to switch state of the null sink component to loaded"⟩,
  ⟨.waitState .null_sink .loaded, false, ""⟩,
  ⟨.freeHandle .camera, true, "Failed to free camera component handle"⟩,
  ⟨.freeHandle .render, true, "Failed to free render component handle"⟩,
  ⟨.freeHandle .null_sink, true, "Failed to free null sink component handle"⟩,
  ⟨.deleteLock, false, ""⟩,
  ⟨.omxDeinit, true, "OMX de-initalization failed"⟩,
  ⟨.sayExit, false, ""⟩]

/-- All steps of main's success path in order. -/
def mainSteps : List MainStep :=
  startupSteps ++ teardownSteps

/-- The operations of the startup phase. -/
def startupActions : List Act :=
  startupSteps.map (·.action)

/-- The operations of the teardown phase. -/
def teardownActions : List Act :=
  teardownSteps.map (·.action)

/-- All operations of main's success path. -/
def mainActions : List Act :=
  mainSteps.map (·.action)

/-- a and b occur in l and the first occurrence of a comes before the first
occurrence of b. -/
def before (l : List Act) (a b : Act) : Prop :=
  a ∈ l ∧ b ∈ l ∧ l.indexOf a < l.indexOf b

/-- a occurs in l and the element right after its first occurrence is b. -/
def followedNext (l : List Act) (a b : Act) : Prop :=
  a ∈ l ∧ l.get? (l.indexOf a + 1) = some b

def isFlushCmd : Act → Bool
  | .cmdFlush _ _ => true
  | _ => false

def isDisableCmd : Act → Bool
  | .cmdPortDisable _ _ => true
  | _ => false

def isEnableCmd : Act → Bool
  | .cmdPortEnable _ _ => true
  | _ => false

def isStateCmd : Act → Bool
  | .cmdStateSet _ _ => true
  | _ => false

def isFreeBufferAct : Act → Bool
  | .freeBuffer _ _ => true
  | _ => false

def isFreeHandleAct : Act → Bool
  | .freeHandle _ => true
  | _ => false

/-- Every command in l that matches the predicate is immediately followed
by the action b. -/
def eachFollowedBy (l : List Act) (isCmd : Act → Bool) (b : Act) : Prop :=
  ∀ i, (h : i < l.length) → isCmd (l.get ⟨i, h⟩) = true → l.get? (i + 1) = some b

instance (l : List Act) (a b : Act) : Decidable (before l a b) :=
  inferInstanceAs (Decidable (a ∈ l ∧ b ∈ l ∧ l.indexOf a < l.indexOf b))

instance (l : List Act) (a b : Act) : Decidable (followedNext l a b) :=
  inferInstanceAs (Decidable (a ∈ l ∧ l.get? (l.indexOf a + 1) = some b))

instance (l : List Act) (p : Act → Bool) (b : Act) : Decidable (eachFollowedBy l p b) :=
  inferInstanceAs (Decidable (∀ i, (h : i < l.length) → p (l.get ⟨i, h⟩) = true →
    l.get? (i + 1) = some b))

/-- The outcome of a run of main: the process exit status, the omx_die
diagnostic when the run died, and the operations performed before that. -/
structure ProcOutcome where
  exitCode : Nat
  diag : Option Diagnostic
  performed : List Act
deriving DecidableEq

/-- Runs the steps of main from step index i on.  The oracle gives the
OMX_ERRORTYPE each oracle-visible call returns; the first step whose check
fires calls omx_die, which prints one diagnostic and exits with status 1,
so no later step runs.  If every check passes, main returns 0. -/
def runSteps (oracle : Nat → OMXErr) : Nat → List MainStep → List Act → ProcOutcome
  | _, [], acc => ⟨0, none, acc.reverse⟩
  | i, step :: rest, acc =>
      if step.canFail = true ∧ oracle i ≠ OMXErr.errorNone then
        ⟨(omx_die (oracle i) step.errMsg).1, some (omx_die (oracle i) step.errMsg).2, acc.reverse⟩
      else
        runSteps oracle (i + 1) rest (step.action :: acc)

/-- main under a given oracle of runtime results. -/
def runMain (oracle : Nat → OMXErr) : ProcOutcome :=
  runSteps oracle 0 mainSteps []

/-- OMX_PORT_PARAM_TYPE as filled in by OMX_GetParameter for one of the
four port-category indices: the component's ports of that category are the
indices in [nStartPortNumber, nStartPortNumber + nPorts). -/
structure PortParam where
  nStartPortNumber : Nat
  nPorts : Nat
deriving DecidableEq

/-- The enabled flags of one component's ports, by port index. -/
def PortEnabledMap : Type := Nat → Bool

/-- OMX_SendCommand(OMX_CommandPortDisable, p, NULL) against a compliant
runtime: the runtime marks port p disabled, so the subsequent
block_until_port_changed(p, OMX_FALSE) poll observes bEnabled = OMX_FALSE
and returns. -/
def sendPortDisableCmd (st : PortEnabledMap) (p : Nat) : PortEnabledMap :=
  fun q => if q = p then false else st q

/-- The two operations the init_component_handle disable loop performs per
discovered port (lines 332-336): the disable command and the confirmation
wait. -/
inductive InitAct
  | cmdPortDisable (p : Nat)
  | waitPortDisabled (p : Nat)
deriving DecidableEq

/-- The inner for-loop of init_component_handle (lines 331-337), running
nPortIndex from start to start + count: each port in the range is sent a
disable command and then blocked on until it reports disabled.  Returns the
resulting enabled flags and the operations performed. -/
def disablePortsLoop (start : Nat) : Nat → PortEnabledMap → PortEnabledMap × List InitAct
  | 0, st => (st, [])
  | count + 1, st =>
      let st1 := sendPortDisableCmd st start
      let r := disablePortsLoop (start + 1) count st1
      (r.1, .cmdPortDisable start :: .waitPortDisabled start :: r.2)

/-- The outer loop of init_component_handle (lines 317-339) over the four
port-category indices (audio, video, image, other): `discovery` holds, per
category, the port range when OMX_GetParameter succeeded for that category
index, and none when the call failed (the guard at line 329 skips it). -/
def init_component_handle_disable_all :
    List (Option PortParam) → PortEnabledMap → PortEnabledMap × List InitAct
  | [], st => (st, [])
  | none :: rest, st => init_component_handle_disable_all rest st
  | some r :: rest, st =>
      let r1 := disablePortsLoop r.nStartPortNumber r.nPorts st
      let r2 := init_component_handle_disable_all rest r1.1
      (r2.1, r1.2 ++ r2.2)

/-- A function pointer value as stored in an OMX_CALLBACKTYPE field:
either the null pointer (a zeroed field) or the address of the program's
event_handler. -/
inductive FnPtr
  | null
  | eventHandlerFn
deriving DecidableEq

/-- OMX_CALLBACKTYPE: the three callback fields the runtime reads.  A field
holds some value once written; none models the indeterminate content of an
automatic variable that was never written. -/
structure OMXCallbacks where
  EventHandler : Option FnPtr
  EmptyBufferDone : Option FnPtr
  FillBufferDone : Option FnPtr
deriving DecidableEq

/-- The destination object of a memset call in main's init section: the
appctx local `ctx` or the OMX_CALLBACKTYPE local `callbacks`. -/
inductive MemTarget
  | ctxVar
  | callbacksVar
deriving DecidableEq

/-- The length argument of such a memset: sizeof(ctx) or sizeof(callbacks).
sizeof(OMX_CALLBACKTYPE) (three function pointers) is smaller than
sizeof(appctx) (three handles, a buffer pointer, two ints and a semaphore),
so a sizeof(callbacks)-byte write at &ctx stays inside ctx. -/
inductive MemLen
  | sizeofCtx
  | sizeofCallbacks
deriving DecidableEq

/-- The locals of main's init section: whether the whole of ctx is zeroed,
and the contents of the callbacks structure. -/
structure MainLocals where
  ctxZeroed : Bool
  callbacks : OMXCallbacks
deriving DecidableEq

/-- The locals as declared (lines 395 and 402): automatic storage with
indeterminate contents. -/
def declaredLocals : MainLocals :=
  ⟨false, ⟨none, none, none⟩⟩

/-- memset(&target, 0, len): writes len zero bytes at the start of the
target object.  Zeroing sizeof(callbacks) bytes at &ctx touches only a
prefix of ctx and never touches the callbacks object. -/
def memset_zero (s : MainLocals) : MemTarget → MemLen → MainLocals
  | .ctxVar, .sizeofCtx => { s with ctxZeroed := true }
  | .ctxVar, .sizeofCallbacks => s
  | .callbacksVar, _ => { s with callbacks := ⟨some .null, some .null, some .null⟩ }

/-- Lines 394-404 of main: appctx ctx; memset(&ctx, 0, sizeof(ctx));
OMX_CALLBACKTYPE callbacks; memset(&ctx, 0, sizeof(callbacks));
callbacks.EventHandler = event_handler;  — note that the second memset's
destination argument is &ctx, not &callbacks. -/
def init_callbacks_sequence : MainLocals :=
  let s := declaredLocals
  let s := memset_zero s .ctxVar .sizeofCtx
  let s := memset_zero s .ctxVar .sizeofCallbacks
  { s with callbacks := { s.callbacks with EventHandler := some .eventHandlerFn } }

/-- A concrete camera port state used to instantiate the configuration
theorems: every port starts from the same plausible default descriptor. -/
def sampleCamPorts : CamPorts :=
  fun i => ⟨i, 1, 1, 1, 1024, false, false, 2, 16,
    ⟨0, 0, 320, 240, 320, 240, 64, 0, false, 0, 20, 0⟩⟩

/-- C1: block_until_flushed is claimed to return only after observing the
flushed flag and to consume exactly one confirmation per call.  The local
`quit` is read uninitialized: if its indeterminate value is nonzero (here 1)
the wait returns immediately, consuming no confirmation (first conjunct),
and a pending confirmation survives as a stale flag for a later wait
(second conjunct).  Only when the garbage value happens to be zero does the
call behave as claimed (third and fourth conjuncts). -/
theorem C1_uninitialized_quit_breaks_flush_wait :
    block_until_flushed 1 ⟨false, false⟩ [] = some (⟨false, false⟩, 0) ∧
    block_until_flushed 1 ⟨false, true⟩ [] = some (⟨false, true⟩, 0) ∧
    block_until_flushed 0 ⟨false, true⟩ [false] = some (⟨false, false⟩, 1) ∧
    block_until_flushed 0 ⟨false, false⟩ [false, true] = some (⟨false, false⟩, 1) := by
  decide

/-- C10: the runtime component name is the 13-character prefix
"OMX.broadcom." followed by at most the first 12 characters of the given
name; the three names the program uses are 12 characters or fewer and are
appended in full, while a longer name is silently truncated. -/
theorem C10_component_name_construction :
    (∀ name : String, component_fullname name = "OMX.broadcom." ++ name.take 12) ∧
    component_fullname "camera" = "OMX.broadcom.camera" ∧
    component_fullname "video_render" = "OMX.broadcom.video_render" ∧
    component_fullname "null_sink" = "OMX.broadcom.null_sink" ∧
    component_fullname "image_encode_x" = "OMX.broadcom.image_encode" := by
  refine ⟨fun name => rfl, ?_, ?_, ?_, ?_⟩ <;> rfl

/-- C5: configuring the preview output port 70 from a display of width W and
height H is a read-modify-write that sets the frame width to W/2, the frame
height to H/2, the frame rate to 25 << 16 and the stride to the new frame
width W/2, writes every untouched descriptor field back verbatim, leaves
every other port unchanged, and for a 1920x1080 display yields a 960x540
preview port with stride 960. -/
theorem C5_preview_port_configuration (st : CamPorts) (W H : Nat) :
    ((configure_preview_port st W H) 70).video.nFrameWidth = W / 2 ∧
    ((configure_preview_port st W H) 70).video.nFrameHeight = H / 2 ∧
    ((configure_preview_port st W H) 70).video.xFramerate = 25 <<< 16 ∧
    ((configure_preview_port st W H) 70).video.nStride = Int.ofNat (W / 2) ∧
    ((configure_preview_port st W H) 70).nPortIndex = 70 ∧
    ((configure_preview_port st W H) 70).eDir = (st 70).eDir ∧
    ((configure_preview_port st W H) 70).nBufferCountActual = (st 70).nBufferCountActual ∧
    ((configure_preview_port st W H) 70).nBufferCountMin = (st 70).nBufferCountMin ∧
    ((configure_preview_port st W H) 70).nBufferSize = (st 70).nBufferSize ∧
    ((configure_preview_port st W H) 70).bEnabled = (st 70).bEnabled ∧
    ((configure_preview_port st W H) 70).bPopulated = (st 70).bPopulated ∧
    ((configure_preview_port st W H) 70).eDomain = (st 70).eDomain ∧
    ((configure_preview_port st W H) 70).nBufferAlignment = (st 70).nBufferAlignment ∧
    ((configure_preview_port st W H) 70).video.cMIMEType = (st 70).video.cMIMEType ∧
    ((configure_preview_port st W H) 70).video.pNativeRender = (st 70).video.pNativeRender ∧
    ((configure_preview_port st W H) 70).video.nSliceHeight = (st 70).video.nSliceHeight ∧
    ((configure_preview_port st W H) 70).video.nBitrate = (st 70).video.nBitrate ∧
    ((configure_preview_port st W H) 70).video.bFlagErrorConcealment
      = (st 70).video.bFlagErrorConcealment ∧
    ((configure_preview_port st W H) 70).video.eCompressionFormat
      = (st 70).video.eCompressionFormat ∧
    ((configure_preview_port st W H) 70).video.eColorFormat = (st 70).video.eColorFormat ∧
    ((configure_preview_port st W H) 70).video.pNativeWindow = (st 70).video.pNativeWindow ∧
    (∀ p, p ≠ 70 → (configure_preview_port st W H) p = st p) ∧
    ((configure_preview_port st 1920 1080) 70).video.nFrameWidth = 960 ∧
    ((configure_preview_port st 1920 1080) 70).video.nFrameHeight = 540 ∧
    ((configure_preview_port st 1920 1080) 70).video.nStride = 960 := by
  repeat' apply And.intro
  all_goals try rfl
  intro p hp
  simp [configure_preview_port, OMX_GetParameter_portdef, OMX_SetParameter_portdef, hp]

/-- C6: the camera video output port 71 descriptor is the full port 70
descriptor with only nPortIndex changed to 71; port 70 itself is left
unchanged, and after the preview configuration port 71 therefore carries
width W/2, height H/2 and stride equal to its own width. -/
theorem C6_video_port_inherits_preview_descriptor (st0 : CamPorts) (W H : Nat) :
    ((configure_video_port (configure_preview_port st0 W H)) 71) =
      { (configure_preview_port st0 W H) 70 with nPortIndex := 71 } ∧
    ((configure_video_port (configure_preview_port st0 W H)) 70) =
      (configure_preview_port st0 W H) 70 ∧
    ((configure_video_port (configure_preview_port st0 W H)) 71).video.nFrameWidth = W / 2 ∧
    ((configure_video_port (configure_preview_port st0 W H)) 71).video.nFrameHeight = H / 2 ∧
    ((configure_video_port (configure_preview_port st0 W H)) 71).video.nStride =
      Int.ofNat (((configure_video_port (configure_preview_port st0 W H)) 70).video.nFrameWidth) := by
  repeat' apply And.intro
  all_goals rfl

/-- C2: every port enable or disable is claimed to be individually followed
by a confirmation wait.  In teardown the render port 90 disable command is
issued (line 760) and the very next operation is the null sink port 240
disable (line 763): no block_until_port_changed(render, 90, OMX_FALSE) wait
exists anywhere in the program, so the claim fails at that step. -/
theorem C2_render_port_disable_missing_wait :
    Act.cmdPortDisable .render 90 ∈ teardownActions ∧
    teardownActions.get? (teardownActions.indexOf (Act.cmdPortDisable .render 90) + 1) =
      some (Act.cmdPortDisable .null_sink 240) ∧
    Act.waitPort .render 90 false ∉ teardownActions ∧
    Act.waitPort .render 90 false ∉ startupActions := by
  decide

/-- C3: the startup lifecycle order.  The three components are commanded to
idle (camera, render, null sink), each confirmed, before any port enable;
the five ports are enabled in the order 73, 70, 71, 90, 240, each enable
immediately followed by its own wait; the host buffer is allocated only
after port 73 is enabled; the three components are then moved to executing
in the same order and confirmed; and capture on port 71 is switched on only
after all three executing confirmations and after the camera_ready flag was
observed set. -/
theorem C3_startup_order :
    before startupActions (.cmdStateSet .camera .idle) (.waitState .camera .idle) ∧
    before startupActions (.waitState .camera .idle) (.cmdStateSet .render .idle) ∧
    before startupActions (.cmdStateSet .render .idle) (.waitState .render .idle) ∧
    before startupActions (.waitState .render .idle) (.cmdStateSet .null_sink .idle) ∧
    before startupActions (.cmdStateSet .null_sink .idle) (.waitState .null_sink .idle) ∧
    before startupActions (.waitState .null_sink .idle) (.cmdPortEnable .camera 73) ∧
    followedNext startupActions (.cmdPortEnable .camera 73) (.waitPort .camera 73 true) ∧
    before startupActions (.waitPort .camera 73 true) (.cmdPortEnable .camera 70) ∧
    followedNext startupActions (.cmdPortEnable .camera 70) (.waitPort .camera 70 true) ∧
    before startupActions (.waitPort .camera 70 true) (.cmdPortEnable .camera 71) ∧
    followedNext startupActions (.cmdPortEnable .camera 71) (.waitPort .camera 71 true) ∧
    before startupActions (.waitPort .camera 71 true) (.cmdPortEnable .render 90) ∧
    followedNext startupActions (.cmdPortEnable .render 90) (.waitPort .render 90 true) ∧
    before startupActions (.waitPort .render 90 true) (.cmdPortEnable .null_sink 240) ∧
    followedNext startupActions (.cmdPortEnable .null_sink 240) (.waitPort .null_sink 240 true) ∧
    startupActions.filter isEnableCmd =
      [.cmdPortEnable .camera 73, .cmdPortEnable .camera 70, .cmdPortEnable .camera 71,
       .cmdPortEnable .render 90, .cmdPortEnable .null_sink 240] ∧
    before startupActions (.waitPort .camera 73 true) (.allocateBuffer .camera 73) ∧
    before startupActions (.allocateBuffer .camera 73) (.cmdStateSet .camera .executing) ∧
    before startupActions (.cmdStateSet .camera .executing) (.waitState .camera .executing) ∧
    before startupActions (.waitState .camera .executing) (.cmdStateSet .render .executing) ∧
    before startupActions (.cmdStateSet .render .executing) (.waitState .render .executing) ∧
    before startupActions (.waitState .render .executing) (.cmdStateSet .null_sink .executing) ∧
    before startupActions (.cmdStateSet .null_sink .executing) (.waitState .null_sink .executing) ∧
    before startupActions (.waitState .camera .executing) (.setCapture 71 true) ∧
    before startupActions (.waitState .render .executing) (.setCapture 71 true) ∧
    before startupActions (.waitState .null_sink .executing) (.setCapture 71 true) ∧
    before startupActions (.waitCameraReady) (.setCapture 71 true) ∧
    startupActions.filter isStateCmd =
      [.cmdStateSet .camera .idle, .cmdStateSet .render .idle, .cmdStateSet .null_sink .idle,
       .cmdStateSet .camera .executing, .cmdStateSet .render .executing,
       .cmdStateSet .null_sink .executing] := by
  decide

/-- C4: the teardown sequence.  It starts with the capture switch-off on
port 71; issues exactly five flush commands on ports 73, 70, 71, 90, 240 in
that order, each immediately followed by the block_until_flushed wait;
issues exactly five port-disable commands; frees the host buffer exactly
once; commands the three components to idle and then to loaded (six state
transitions); and finally frees exactly three handles — with the phases in
that order. -/
theorem C4_teardown_sequence :
    teardownActions.get? 0 = some (.setCapture 71 false) ∧
    teardownActions.filter isFlushCmd =
      [.cmdFlush .camera 73, .cmdFlush .camera 70, .cmdFlush .camera 71,
       .cmdFlush .render 90, .cmdFlush .null_sink 240] ∧
    eachFollowedBy teardownActions isFlushCmd .waitFlushed ∧
    teardownActions.filter isDisableCmd =
      [.cmdPortDisable .camera 73, .cmdPortDisable .camera 70, .cmdPortDisable .camera 71,
       .cmdPortDisable .render 90, .cmdPortDisable .null_sink 240] ∧
    teardownActions.filter isFreeBufferAct = [.freeBuffer .camera 73] ∧
    teardownActions.filter isStateCmd =
      [.cmdStateSet .camera .idle, .cmdStateSet .render .idle, .cmdStateSet .null_sink .idle,
       .cmdStateSet .camera .loaded, .cmdStateSet .render .loaded,
       .cmdStateSet .null_sink .loaded] ∧
    teardownActions.filter isFreeHandleAct =
      [.freeHandle .camera, .freeHandle .render, .freeHandle .null_sink] ∧
    before teardownActions (.setCapture 71 false) (.cmdFlush .camera 73) ∧
    before teardownActions (.cmdFlush .null_sink 240) (.cmdPortDisable .camera 73) ∧
    before teardownActions (.cmdPortDisable .null_sink 240) (.freeBuffer .camera 73) ∧
    before teardownActions (.freeBuffer .camera 73) (.cmdStateSet .camera .idle) ∧
    before teardownActions (.cmdStateSet .null_sink .idle) (.cmdStateSet .camera .loaded) ∧
    before teardownActions (.cmdStateSet .null_sink .loaded) (.freeHandle .camera) ∧
    before teardownActions (.freeHandle .camera) (.freeHandle .render) ∧
    before teardownActions (.freeHandle .render) (.freeHandle .null_sink) := by
  decide

/-- When every oracle-visible check from step i on passes, runSteps performs
every remaining step and main returns 0 with no diagnostic. -/
theorem runSteps_all_ok (oracle : Nat → OMXErr) (steps : List MainStep) :
    ∀ (i : Nat) (acc : List Act), (∀ j, oracle (i + j) = OMXErr.errorNone) →
    runSteps oracle i steps acc = ⟨0, none, acc.reverse ++ steps.map (·.action)⟩ := by
  induction steps with
  | nil => intro i acc _; simp [runSteps]
  | cons s rest ih =>
      intro i acc h
      have h0 : oracle i = OMXErr.errorNone := by simpa using h 0
      rw [runSteps, if_neg (fun hc => hc.2 h0),
        ih (i + 1) (s.action :: acc) (fun j => by
          have := h (j + 1)
          simpa [Nat.add_assoc, Nat.add_comm 1 j] using this)]
      simp

/-- When the first failing oracle-visible check is the one of step k, the
run stops there: exit status 1, one diagnostic carrying that step's message,
error code and description, and exactly the actions of the earlier steps
performed — nothing retried, nothing after step k issued. -/
theorem runSteps_fails (oracle : Nat → OMXErr) (steps : List MainStep) :
    ∀ (k : Nat) (step : MainStep) (i : Nat) (acc : List Act),
    steps.get? k = some step →
    (∀ j, j < k → oracle (i + j) = OMXErr.errorNone) →
    step.canFail = true → oracle (i + k) ≠ OMXErr.errorNone →
    runSteps oracle i steps acc =
      ⟨1, some ⟨step.errMsg, oracle (i + k), omx_error_description (oracle (i + k))⟩,
        acc.reverse ++ (steps.take k).map (·.action)⟩ := by
  induction steps with
  | nil => intro k step i acc hk; simp at hk
  | cons s rest ih =>
      intro k step i acc hk hok hcf he
      match k with
      | 0 =>
          have hs : s = step := by simpa using hk
          subst hs
          have he0 : oracle i ≠ OMXErr.errorNone := by simpa using he
          rw [runSteps, if_pos ⟨hcf, he0⟩]
          simp [omx_die]
      | Nat.succ k =>
          have h0 : oracle i = OMXErr.errorNone := by simpa using hok 0 (Nat.succ_pos k)
          have hrec := ih k step (i + 1) (s.action :: acc) (by simpa using hk)
            (fun j hj => by
              have := hok (j + 1) (Nat.succ_lt_succ hj)
              simpa [Nat.add_assoc, Nat.add_comm 1 j] using this)
            hcf
            (by
              have : i + (k + 1) = i + 1 + k := by omega
              rw [this] at he
              exact he)
          rw [runSteps, if_neg (fun hc => hc.2 h0), hrec]
          have : i + (k + 1) = i + 1 + k := by omega
          rw [this]
          simp

/-- C8: the fatal-error policy.  If every runtime check passes, main runs
every step and exits 0 (having printed the final "Exit!" line, the last
step of the trace).  If the first rejected oracle-visible call is step k,
the process exits 1 with a single diagnostic naming that step's operation
and the runtime error code and description, with no step after k issued and
no retry.  An asynchronous error event makes event_handler call omx_die,
exiting 1 with a diagnostic naming the operation and code; die() likewise
always exits 1. -/
theorem C8_fatal_error_policy (oracle : Nat → OMXErr) :
    ((∀ j, oracle j = OMXErr.errorNone) → runMain oracle = ⟨0, none, mainActions⟩) ∧
    (∀ k step, mainSteps.get? k = some step →
      (∀ j, j < k → oracle j = OMXErr.errorNone) →
      step.canFail = true → oracle k ≠ OMXErr.errorNone →
      runMain oracle =
        ⟨1, some ⟨step.errMsg, oracle k, omx_error_description (oracle k)⟩,
          (mainSteps.take k).map (·.action)⟩) ∧
    (∀ s e, event_handler s (.errorEvent e) =
      .inr (1, ⟨"error event received", e, omx_error_description e⟩)) ∧
    (∀ msg, (die msg).1 = 1) ∧
    mainActions.get? (mainActions.length - 1) = some .sayExit := by
  refine ⟨?_, ?_, ?_, ?_, ?_⟩
  · intro h
    have := runSteps_all_ok oracle mainSteps 0 [] (fun j => by simpa using h j)
    simpa [runMain, mainActions] using this
  · intro k step hk hok hcf he
    have := runSteps_fails oracle mainSteps k step 0 [] hk
      (fun j hj => by simpa using hok j hj) hcf (by simpa using he)
    simpa [runMain] using this
  · intro s e; rfl
  · intro msg; rfl
  · decide

/-- Witness for C8: a run in which every check passes exits 0 after the full
trace, and a run whose very first check (OMX_Init) reports a hardware error
exits 1 with the corresponding diagnostic and no step performed. -/
theorem C8_fatal_error_policy_witness :
    runMain (fun _ => OMXErr.errorNone) = ⟨0, none, mainActions⟩ ∧
    runMain (fun _ => OMXErr.hardware) =
      ⟨1, some ⟨"OMX initalization failed", OMXErr.hardware, "hardware error"⟩, []⟩ := by
  constructor
  · exact (C8_fatal_error_policy (fun _ => OMXErr.errorNone)).1 (fun j => rfl)
  · have h := (C8_fatal_error_policy (fun _ => OMXErr.hardware)).2.1 0
      ⟨Act.omxInit, true, "OMX initalization failed"⟩ rfl
      (fun j hj => absurd hj (Nat.not_lt_zero j)) rfl (by decide)
    simpa using h

/-- After the inner disable loop, a port's enabled flag is false exactly
when the port lies in the processed range; other ports keep their flag. -/
theorem disablePortsLoop_state (count : Nat) :
    ∀ (start : Nat) (st : PortEnabledMap) (p : Nat),
    (disablePortsLoop start count st).1 p =
      if start ≤ p ∧ p < start + count then false else st p := by
  induction count with
  | zero =>
      intro start st p
      rw [disablePortsLoop, if_neg (by omega)]
  | succ n ih =>
      intro start st p
      simp only [disablePortsLoop]
      rw [ih (start + 1) (sendPortDisableCmd st start) p]
      by_cases h1 : start + 1 ≤ p ∧ p < start + 1 + n
      · rw [if_pos h1, if_pos (by omega)]
      · rw [if_neg h1]
        simp only [sendPortDisableCmd]
        by_cases h2 : p = start
        · rw [if_pos h2, if_pos (by omega)]
        · rw [if_neg h2, if_neg (by omega)]

/-- A port already disabled stays disabled across the inner loop. -/
theorem disablePortsLoop_preserves_false (count start : Nat) (st : PortEnabledMap) (p : Nat)
    (h : st p = false) : (disablePortsLoop start count st).1 p = false := by
  rw [disablePortsLoop_state]
  split <;> simp [h]

/-- For every port in the processed range, the inner loop's operation list
contains its disable command immediately followed by its confirmation
wait. -/
theorem disablePortsLoop_trace (count : Nat) :
    ∀ (start : Nat) (st : PortEnabledMap) (p : Nat), start ≤ p → p < start + count →
    ∃ i, (disablePortsLoop start count st).2.get? i = some (.cmdPortDisable p) ∧
      (disablePortsLoop start count st).2.get? (i + 1) = some (.waitPortDisabled p) := by
  induction count with
  | zero => intro start st p h1 h2; omega
  | succ n ih =>
      intro start st p h1 h2
      by_cases hp : p = start
      · subst hp
        exact ⟨0, by simp [disablePortsLoop], by simp [disablePortsLoop]⟩
      · obtain ⟨i, hi1, hi2⟩ :=
          ih (start + 1) (sendPortDisableCmd st start) p (by omega) (by omega)
        exact ⟨i + 2, by simpa [disablePortsLoop] using hi1,
          by simpa [disablePortsLoop] using hi2⟩

/-- A port already disabled stays disabled across the whole four-category
loop. -/
theorem init_disable_all_preserves_false (disc : List (Option PortParam)) :
    ∀ (st : PortEnabledMap) (p : Nat), st p = false →
    (init_component_handle_disable_all disc st).1 p = false := by
  induction disc with
  | nil => intro st p h; simpa [init_component_handle_disable_all] using h
  | cons o rest ih =>
      intro st p h
      cases o with
      | none => simpa [init_component_handle_disable_all] using ih st p h
      | some r =>
          simp only [init_component_handle_disable_all]
          exact ih _ p (disablePortsLoop_preserves_false _ _ _ p h)

/-- C7: after init_component_handle's disable loop, every port discovered in
any of the four probed port categories has been driven to disabled, and the
performed operations contain, for each such port, its disable command
immediately followed by the wait that blocks until the port reports
disabled. -/
theorem C7_init_disables_every_discovered_port
    (disc : List (Option PortParam)) (st : PortEnabledMap) (r : PortParam)
    (hr : some r ∈ disc) (p : Nat)
    (h1 : r.nStartPortNumber ≤ p) (h2 : p < r.nStartPortNumber + r.nPorts) :
    (init_component_handle_disable_all disc st).1 p = false ∧
    ∃ i, (init_component_handle_disable_all disc st).2.get? i =
        some (.cmdPortDisable p) ∧
      (init_component_handle_disable_all disc st).2.get? (i + 1) =
        some (.waitPortDisabled p) := by
  induction disc generalizing st with
  | nil => simp at hr
  | cons o rest ih =>
      rcases List.mem_cons.mp hr with heq | hmem
      · have ho : o = some r := heq.symm
        subst ho
        simp only [init_component_handle_disable_all]
        constructor
        · refine init_disable_all_preserves_false rest _ p ?_
          rw [disablePortsLoop_state]
          rw [if_pos ⟨h1, h2⟩]
        · obtain ⟨i, hi1, hi2⟩ :=
            disablePortsLoop_trace r.nPorts r.nStartPortNumber st p h1 h2
          have hlen2 : i + 1 < (disablePortsLoop r.nStartPortNumber r.nPorts st).2.length :=
            (List.get?_eq_some.mp hi2).1
          have hlen1 : i < (disablePortsLoop r.nStartPortNumber r.nPorts st).2.length := by
            omega
          exact ⟨i, by rw [List.get?_append hlen1]; exact hi1,
            by rw [List.get?_append hlen2]; exact hi2⟩
      · cases o with
        | none =>
            simpa [init_component_handle_disable_all] using ih st hmem
        | some r0 =>
            simp only [init_component_handle_disable_all]
            obtain ⟨hstate, i, hi1, hi2⟩ :=
              ih ((disablePortsLoop r0.nStartPortNumber r0.nPorts st).1) hmem
            refine ⟨hstate, ?_⟩
            refine ⟨(disablePortsLoop r0.nStartPortNumber r0.nPorts st).2.length + i, ?_, ?_⟩
            · rw [List.get?_append_right (Nat.le_add_right _ _)]
              simpa using hi1
            · rw [show (disablePortsLoop r0.nStartPortNumber r0.nPorts st).2.length + i + 1 =
                (disablePortsLoop r0.nStartPortNumber r0.nPorts st).2.length + (i + 1) from rfl]
              rw [List.get?_append_right (Nat.le_add_right _ _)]
              simpa using hi2

/-- Witness for C7: a camera-like component whose video category reports
ports 70-73 and whose other categories fail discovery, starting with every
port enabled: port 73 ends disabled and its disable command and wait appear
adjacently in the performed operations. -/
theorem C7_init_disables_every_discovered_port_witness :
    (init_component_handle_disable_all [none, some ⟨70, 4⟩, none, none] (fun _ => true)).1 73
      = false ∧
    ∃ i, (init_component_handle_disable_all [none, some ⟨70, 4⟩, none, none]
        (fun _ => true)).2.get? i = some (.cmdPortDisable 73) ∧
      (init_component_handle_disable_all [none, some ⟨70, 4⟩, none, none]
        (fun _ => true)).2.get? (i + 1) = some (.waitPortDisabled 73) :=
  C7_init_disables_every_discovered_port [none, some ⟨70, 4⟩, none, none] (fun _ => true)
    ⟨70, 4⟩ (by decide) 73 (by decide) (by decide)

/-- C9: at the first OMX_GetHandle call the callbacks structure is claimed
to be fully zeroed before EventHandler is assigned.  The memset at line 403
targets &ctx with length sizeof(callbacks), so callbacks itself is never
zeroed: EventHandler is the only defined field and the two buffer-done
fields stay indeterminate (first three conjuncts).  Had the memset targeted
&callbacks, both buffer-done fields would be null as claimed (last
conjunct). -/
theorem C9_callbacks_struct_not_zeroed :
    init_callbacks_sequence.callbacks.EventHandler = some FnPtr.eventHandlerFn ∧
    init_callbacks_sequence.callbacks.EmptyBufferDone = none ∧
    init_callbacks_sequence.callbacks.FillBufferDone = none ∧
    init_callbacks_sequence.ctxZeroed = true ∧
    (let s := memset_zero (memset_zero declaredLocals .ctxVar .sizeofCtx)
        .callbacksVar .sizeofCallbacks
     ({ s with callbacks :=
        { s.callbacks with EventHandler := some .eventHandlerFn } }).callbacks
       = ⟨some .eventHandlerFn, some .null, some .null⟩) := by
  decide

/-- Witness for C5: at the sample camera state and a 1920x1080 display, the
preview port width becomes 960 and an untouched port (71) is unchanged. -/
theorem C5_preview_port_configuration_witness :
    ((configure_preview_port sampleCamPorts 1920 1080) 70).video.nFrameWidth = 960 ∧
    ((configure_preview_port sampleCamPorts 1920 1080) 71) = sampleCamPorts 71 := by
  obtain ⟨h1, h2, h3, h4, h5, h6, h7, h8, h9, h10, h11, h12, h13, h14, h15, h16, h17,
    h18, h19, h20, h21, hOther, h23, h24, h25⟩ :=
    C5_preview_port_configuration sampleCamPorts 1920 1080
  exact ⟨h23, hOther 71 (by decide)⟩
